import Mathlib

/-!
Verification development for the evaluation core of the lilith Lisp
interpreter (tagged value model `lval`, environment chain `lenv`,
tree-walking evaluator and builtin library).

The embedding follows the C sources:
  * `lval.c`   — value construction, copying, equality (`lval_is_equal`),
                 type names (`ltype_name`);
  * `lenv.c`   — environment chain with a read-only root
                 (`lenv_get`, `lenv_put`, `lilith_init`);
  * the builtin arithmetic file (registered by `lenv_add_builtins_sums`,
    which is the registration `lilith_init` performs) — `do_calc`,
    `builtin_op` and the per-operator scalar functions;
  * the evaluator file — `lval_eval`, `lval_eval_sexpr` and the list /
    binding builtins (`head`, `tail`, `join`, `cons`, `def`, ...).

C `long` is modelled as `Int`, C `double` as `ℚ` (all constants the
theorems touch are exactly representable; no NaN/infinity arises because
every division in scope is guarded).  Heap pointers disappear: values are
trees, environments are lists of frames (innermost scope first).
-/

/-- Identity of a native builtin operation.  In the C sources a builtin
value stores a function pointer; two builtin values are the same
operation exactly when the pointers coincide, which this enumeration
mirrors. -/
inductive BuiltinId where
  | bAdd | bSub | bMul | bDiv | bMin | bMax | bPow | bMod
  | bGt | bLt | bGte | bLte
  | bDef | bList | bHead | bTail | bEval | bJoin | bLen | bCons | bInit
  deriving DecidableEq, Repr

/-- The tagged value type of `lval.c`.  A user function carries its
captured environment (a chain of frames, each a read-only flag plus a
symbol table), its formals and its body, mirroring the
`LVAL_USER_FUN` payload `{env, formals, body}`. -/
inductive lval where
  | lvLong (n : Int)
  | lvDouble (d : ℚ)
  | lvBool (b : Bool)
  | lvString (s : String)
  | lvSymbol (s : String)
  | lvError (msg : String)
  | lvBuiltin (f : BuiltinId)
  | lvSexpr (cells : List lval)
  | lvQexpr (cells : List lval)
  | lvUserFun (env : List (Bool × List (String × lval)))
      (formals : lval) (body : lval)
  deriving Repr

open lval

/-- A value is a function (`LVAL_BUILTIN_FUN` or `LVAL_USER_FUN`; the
builtin file predates the split and uses the single tag `LVAL_FUN` for
both, printed as "Function" by `ltype_name`). -/
def isFunction : lval → Bool
  | lvBuiltin _ => true
  | lvUserFun _ _ _ => true
  | _ => false

mutual

/-- `lval_copy` from `lval.c`: a deep clone.  Scalars are copied
field-by-field, sequences element-by-element via `lval_add`, and a user
function clones its captured environment with `lenv_copy`, its formals
and its body. -/
def lval_copy : lval → lval
  | lvLong n => lvLong n
  | lvDouble d => lvDouble d
  | lvBool b => lvBool b
  | lvString s => lvString s
  | lvSymbol s => lvSymbol s
  | lvError m => lvError m
  | lvBuiltin f => lvBuiltin f
  | lvSexpr cells => lvSexpr (lval_copy_list cells)
  | lvQexpr cells => lvQexpr (lval_copy_list cells)
  | lvUserFun env f b => lvUserFun (lenv_copy env) (lval_copy f) (lval_copy b)

/-- The element loop of `lval_copy` for `LVAL_SEXPRESSION` /
`LVAL_QEXPRESSION`: `lval_add(rv, lval_copy(ptr->data))` over the list,
preserving order. -/
def lval_copy_list : List lval → List lval
  | [] => []
  | v :: vs => lval_copy v :: lval_copy_list vs

/-- `lenv_copy` from `lenv.c`: copies the environment's own table
(deep-copying every binding) and keeps the same parent link and
read-only flag.  In the list-of-frames model the parent chain is the
tail, shared unchanged. -/
def lenv_copy : List (Bool × List (String × lval)) →
    List (Bool × List (String × lval))
  | [] => []
  | (ro, t) :: rest => (ro, lenv_copy_table t) :: rest

/-- The binding loop of `lenv_copy`: `strdup(key)` and
`lval_copy(value)` for every entry. -/
def lenv_copy_table : List (String × lval) → List (String × lval)
  | [] => []
  | (k, v) :: t => (k, lval_copy v) :: lenv_copy_table t

end

mutual

/-- `lval_is_equal` from `lval.c`.  Mixed `LVAL_LONG`/`LVAL_DOUBLE`
pairs compare numerically; same-tag scalars compare their payload;
builtins compare by identity of the native operation; user functions
compare formals and body, ignoring the captured environment.

For `LVAL_SEXPRESSION`/`LVAL_QEXPRESSION` the source initialises *both*
cursors of the element loop from `x->value.list.head`
(`for (pair *ptrx = x->..., *ptry = x->...; ...)`), so after the length
check each element of `x` is compared with itself rather than with the
corresponding element of `y`.  The embedding reproduces that loop
exactly. -/
def lval_is_equal : lval → lval → Bool
  | lvLong a, lvDouble d => (a : ℚ) == d
  | lvDouble d, lvLong b => d == (b : ℚ)
  | lvLong a, lvLong b => a == b
  | lvDouble a, lvDouble b => a == b
  | lvBool a, lvBool b => a == b
  | lvString a, lvString b => a == b
  | lvError a, lvError b => a == b
  | lvSymbol a, lvSymbol b => a == b
  | lvBuiltin f, lvBuiltin g => f == g
  | lvUserFun _ f b, lvUserFun _ f' b' =>
      lval_is_equal f f' && lval_is_equal b b'
  | lvSexpr xs, lvSexpr ys =>
      (xs.length == ys.length) && lval_is_equal_cells xs xs
  | lvQexpr xs, lvQexpr ys =>
      (xs.length == ys.length) && lval_is_equal_cells xs xs
  | _, _ => false

/-- The element loop of `lval_is_equal`, walking two cursors in
lockstep (the caller passes `x`'s list for both, reproducing the
source's cursor initialisation). -/
def lval_is_equal_cells : List lval → List lval → Bool
  | x :: xs, y :: ys => lval_is_equal x y && lval_is_equal_cells xs ys
  | _, _ => true

end

/-- `ltype_name` from `lval.c`: the user-visible name of a value's kind. -/
def ltype_name : lval → String
  | lvBuiltin _ => "Function"
  | lvUserFun _ _ _ => "Function"
  | lvLong _ => "Number"
  | lvDouble _ => "Decimal"
  | lvBool _ => "Boolean"
  | lvString _ => "String"
  | lvError _ => "Error"
  | lvSymbol _ => "Symbol"
  | lvSexpr _ => "S-Expression"
  | lvQexpr _ => "Q-Expression"

/-- A value is numeric when its tag is `LVAL_LONG` or `LVAL_DOUBLE`. -/
def isNumeric : lval → Bool
  | lvLong _ => true
  | lvDouble _ => true
  | _ => false

/-- A value is an error when its tag is `LVAL_ERROR`. -/
def isError : lval → Bool
  | lvError _ => true
  | _ => false

/-- A value is an integer (`LVAL_LONG`). -/
def isLong : lval → Bool
  | lvLong _ => true
  | _ => false

/-- A value is a decimal (`LVAL_DOUBLE`). -/
def isDouble : lval → Bool
  | lvDouble _ => true
  | _ => false

/-! ## Arithmetic builtins

From the builtin arithmetic file registered by `lenv_add_builtins_sums`
(the registration performed by `lilith_init`).  A superseded revision of
the evaluator file contains an older copy of these operations whose
`div_l` performs truncating integer division; that copy is dead code
under `lilith_init`'s wiring, and the design notes of the repository
pick the always-decimal behaviour embedded here. -/

/-- The operation tags of the `IOPS` X-macro, in declaration order. -/
inductive Iop where
  | SUB | MUL | DIV | ADD | POW | MAX | MIN | MOD | GT | LT | GTE | LTE
  deriving DecidableEq, Repr

/-- Truncation of a rational toward zero, as C's conversion from a
floating value to `long`. -/
def ratTrunc (q : ℚ) : Int := q.num.tdiv q.den

/-- `pow_l`: C computes `powl(x, y)` in extended floating point and
converts the result to `long` (truncating).  Exact for non-negative
exponents; for a negative exponent the real result `1/x^|y|` truncates
toward zero.  (`powl(0, y)` with `y < 0` overflows in C; the rational
model returns `0` there and no theorem depends on that branch.) -/
def powlTrunc (x y : Int) : Int :=
  if 0 ≤ y then x ^ y.toNat else ratTrunc ((x : ℚ) ^ (-y).toNat)⁻¹

/-- `pow_d`: C `pow` on doubles.  Exact in the rational model only for
integral exponents; a non-integral exponent has no rational value and
is modelled as `0` (no theorem depends on that branch). -/
def powRat (x y : ℚ) : ℚ :=
  if y.den = 1 then
    (if 0 ≤ y.num then x ^ y.num.toNat else (x ^ (-y.num).toNat)⁻¹)
  else 0

/-- `fmod(x, y)`: the floating remainder `x - trunc(x/y) * y`.
(`fmod(x, 0)` is NaN in C, outside the rational model; no theorem
depends on that branch, where the model yields `x`.) -/
def fmodRat (x y : ℚ) : ℚ := x - (ratTrunc (x / y) : ℚ) * y

/-- `add_l` .. `lte` specialised to two `long` operands: the `LOP`
column of the `IOPS` table.  `div_l` guards the zero divisor and
otherwise computes `x / (double)y`, a decimal result; `mod_l` computes
the (truncated) integer remainder `x % y` with no guard — for `y = 0`
the C expression is undefined behaviour (a trap on common targets), and
the total model continues with `Int.tmod`.  The comparison operators
take `double` arguments in C, so the `long` operands are promoted. -/
def lop : Iop → Int → Int → lval
  | .ADD, x, y => lvLong (x + y)
  | .SUB, x, y => lvLong (x - y)
  | .MUL, x, y => lvLong (x * y)
  | .DIV, x, y => if y = 0 then lvError "divide by zero"
      else lvDouble ((x : ℚ) / (y : ℚ))
  | .MAX, x, y => lvLong (if x > y then x else y)
  | .MIN, x, y => lvLong (if x < y then x else y)
  | .MOD, x, y => lvLong (Int.tmod x y)
  | .POW, x, y => lvLong (powlTrunc x y)
  | .GT, x, y => lvBool (decide ((x : ℚ) > (y : ℚ)))
  | .LT, x, y => lvBool (decide ((x : ℚ) < (y : ℚ)))
  | .GTE, x, y => lvBool (decide ((x : ℚ) ≥ (y : ℚ)))
  | .LTE, x, y => lvBool (decide ((x : ℚ) ≤ (y : ℚ)))

/-- `add_d` .. `lte` on two `double` operands: the `DOP` column of the
`IOPS` table.  `div_d` guards the zero divisor. -/
def dop : Iop → ℚ → ℚ → lval
  | .ADD, x, y => lvDouble (x + y)
  | .SUB, x, y => lvDouble (x - y)
  | .MUL, x, y => lvDouble (x * y)
  | .DIV, x, y => if y = 0 then lvError "divide by zero" else lvDouble (x / y)
  | .MAX, x, y => lvDouble (if x > y then x else y)
  | .MIN, x, y => lvDouble (if x < y then x else y)
  | .MOD, x, y => lvDouble (fmodRat x y)
  | .POW, x, y => lvDouble (powRat x y)
  | .GT, x, y => lvBool (decide (x > y))
  | .LT, x, y => lvBool (decide (x < y))
  | .GTE, x, y => lvBool (decide (x ≥ y))
  | .LTE, x, y => lvBool (decide (x ≤ y))

/-- `do_calc`: dispatches one operation tag over the type pair of its
operands — both `long` uses the `LOP` column, otherwise both operands
are promoted to `double` and the `DOP` column is used.  The final
branch is unreachable from `builtin_op`, whose upfront validation
guarantees numeric operands (the C would read an uninitialised union
member there). -/
def do_calc (iop : Iop) : lval → lval → lval
  | lvLong a, lvLong b => lop iop a b
  | lvLong a, lvDouble d => dop iop (a : ℚ) d
  | lvDouble d, lvLong b => dop iop d (b : ℚ)
  | lvDouble a, lvDouble b => dop iop a b
  | _, _ => lvError "do_calc applied to non-numeric operands"

/-- The validation loop of `builtin_op`: walk the argument bundle and
return the first element that is neither `LVAL_LONG` nor
`LVAL_DOUBLE`. -/
def check_numeric : List lval → Option lval
  | [] => none
  | v :: vs => if isNumeric v then check_numeric vs else some v

/-- The fold loop of `builtin_op`: `while elements remain, x =
do_calc(iop, x, pop())`. -/
def op_fold (iop : Iop) : lval → List lval → lval
  | x, [] => x
  | x, y :: ys => op_fold iop (do_calc iop x y) ys

/-- The in-place negation of `builtin_op`'s single-argument subtraction
branch (`x->value.num_l = -x->value.num_l`, resp. `num_d`).  The final
branch is unreachable: validation has ensured a numeric value. -/
def lval_neg : lval → lval
  | lvLong n => lvLong (-n)
  | lvDouble d => lvDouble (-d)
  | v => v

/-- `builtin_op`: validate that every argument is numeric (aborting
with a type-mismatch error naming the first offender), pop the first
operand, negate it if the operation is subtraction with no further
operands, and otherwise fold `do_calc` left-to-right over the rest.
(The `LASSERT_ENV` null-environment guard of the C is vacuous here:
environments are values, never null.  The empty-bundle branch is
unreachable from the evaluator, which never applies a function to an
empty bundle; the C would pop from an empty list there.) -/
def builtin_op (symbol : String) (a : List lval) (iop : Iop) : lval :=
  match check_numeric a with
  | some v => lvError ("function '" ++ symbol ++
      "' type mismatch - expected numeric, received " ++ ltype_name v)
  | none =>
    match a with
    | [] => lvError ("function '" ++ symbol ++ "' received no arguments")
    | x :: rest =>
      match rest, iop with
      | [], .SUB => lval_neg x
      | _, _ => op_fold iop x rest

/-! ## List (Q-expression) builtins

From the evaluator file.  Each builtin receives the name it was
registered under (the C passes `fhandle.symbol`) and its evaluated
argument bundle.  The `LASSERT` checks run in source order, so the
first failing check determines the error.  `LASSERT_ENV` is vacuous in
the embedding (environments are values, never null). -/

/-- The arity-check message of `LASSERT_NUM_ARGS` (the C format string
uses the singular "argument" for every count). -/
def numArgsMsg (symbol : String) (expected received : Nat) : String :=
  s!"function '{symbol}' expects {expected} argument, received {received}"

/-- The message of `LASSERT_TYPE_ARG`. -/
def typeArgMsg (symbol expected received : String) : String :=
  s!"function '{symbol}' type mismatch - expected {expected}, received {received}"

/-- The trimming loop of `builtin_head`: `while (count > 1)
lval_del(lval_pop(rv, 1))` — repeatedly remove the second element until
only the first remains. -/
def headTrim : List lval → List lval
  | x :: _ :: rest => headTrim (x :: rest)
  | l => l

/-- `builtin_head`: one non-empty Q-expression; returns a Q-expression
holding only its first element.  Check order: arity, argument type,
non-emptiness. -/
def builtin_head (symbol : String) (args : List lval) : lval :=
  match args with
  | [lvQexpr cells] =>
    match cells with
    | [] => lvError ("empty q-expression passed to '" ++ symbol ++ "'")
    | c :: rest => lvQexpr (headTrim (c :: rest))
  | [v] => lvError (typeArgMsg symbol "Q-Expression" (ltype_name v))
  | _ => lvError (numArgsMsg symbol 1 args.length)

/-- `builtin_tail`: one non-empty Q-expression; drops the first element
(`lval_del(lval_pop(rv, 0))`). -/
def builtin_tail (symbol : String) (args : List lval) : lval :=
  match args with
  | [lvQexpr cells] =>
    match cells with
    | [] => lvError ("empty q-expression passed to '" ++ symbol ++ "'")
    | _ :: rest => lvQexpr rest
  | [v] => lvError (typeArgMsg symbol "Q-Expression" (ltype_name v))
  | _ => lvError (numArgsMsg symbol 1 args.length)

/-- `builtin_init`: one non-empty Q-expression; removes the last
element (`lval_pop(rv, count - 1)`). -/
def builtin_init (symbol : String) (args : List lval) : lval :=
  match args with
  | [lvQexpr cells] =>
    match cells with
    | [] => lvError ("empty q-expression passed to '" ++ symbol ++ "'")
    | c :: rest => lvQexpr ((c :: rest).dropLast)
  | [v] => lvError (typeArgMsg symbol "Q-Expression" (ltype_name v))
  | _ => lvError (numArgsMsg symbol 1 args.length)

/-- `builtin_list`: retags the (already evaluated) argument bundle as a
Q-expression. -/
def builtin_list (_symbol : String) (args : List lval) : lval :=
  lvQexpr args

/-- `builtin_len`: one Q-expression; its element count as an Integer. -/
def builtin_len (symbol : String) (args : List lval) : lval :=
  match args with
  | [lvQexpr cells] => lvLong cells.length
  | [v] => lvError (typeArgMsg symbol "Q-Expression" (ltype_name v))
  | _ => lvError (numArgsMsg symbol 1 args.length)

/-- The element loop of `lval_join` (and of `builtin_cons`'s second
phase): `while second has elements, lval_add(first, lval_pop(second,
0))` — pop from the front of the second list, append to the back of the
first. -/
def joinCells : List lval → List lval → List lval
  | xs, [] => xs
  | xs, y :: ys => joinCells (xs ++ [y]) ys

/-- `lval_join`: add all elements of the second Q-expression to the
first.  `builtin_join` has validated both tags, so the fallback branch
is unreachable. -/
def lval_join : lval → lval → lval
  | lvQexpr xs, lvQexpr ys => lvQexpr (joinCells xs ys)
  | x, _ => x

/-- The validation loop of `builtin_join`: the first argument that is
not a Q-expression. -/
def check_qexpr : List lval → Option lval
  | [] => none
  | lvQexpr _ :: vs => check_qexpr vs
  | v :: _ => some v

/-- The fold loop of `builtin_join`: `while elements remain, x =
lval_join(x, pop())`. -/
def join_fold : lval → List lval → lval
  | x, [] => x
  | x, y :: ys => join_fold (lval_join x y) ys

/-- `builtin_join`: every argument must be a Q-expression (first
offender aborts with a type mismatch); the results are concatenated in
argument order.  The empty-bundle branch is unreachable from the
evaluator (the C would pop from an empty list). -/
def builtin_join (symbol : String) (args : List lval) : lval :=
  match check_qexpr args with
  | some v => lvError (typeArgMsg symbol "Q-Expression" (ltype_name v))
  | none =>
    match args with
    | [] => lvError ("function '" ++ symbol ++ "' received no arguments")
    | x :: rest => join_fold x rest

/-- `builtin_cons`: two arguments — a value (`LVAL_LONG`,
`LVAL_DOUBLE` or a function) and a Q-expression; builds a new
Q-expression with the value prepended (add the value, then append every
element of the second argument in order). -/
def builtin_cons (symbol : String) (args : List lval) : lval :=
  match args with
  | [v, w] =>
    if isNumeric v || isFunction v then
      match w with
      | lvQexpr cells => lvQexpr (joinCells [v] cells)
      | _ => lvError ("second '" ++ symbol ++
          "' parameter should be a q-expression")
    else lvError ("first '" ++ symbol ++
        "' parameter should be a value or a function")
  | _ => lvError (numArgsMsg symbol 2 args.length)

/-! ## Environment

From `lenv.c`.  A `lenv` is `{parent, table, read_only}`; the model is
a list of frames, innermost scope first, the root last.  The hash table
becomes an association list (`hash_table_add` inserts or overwrites a
binding). -/

/-- One scope's symbol table. -/
abbrev Table := List (String × lval)

/-- One scope: its read-only flag and its table. -/
abbrev Frame := Bool × Table

/-- A chain of scopes, innermost first; the last frame is the root
(whose `parent` is null in C). -/
abbrev Env := List Frame

/-- `hash_table_get` on one table. -/
def assocGet : Table → String → Option lval
  | [], _ => none
  | (k, v) :: t, key => if k = key then some v else assocGet t key

/-- `hash_table_add` on one table: insert, overwriting an existing
binding for the key. -/
def assocPut : Table → String → lval → Table
  | [], key, v => [(key, v)]
  | (k, w) :: t, key, v =>
      if k = key then (k, v) :: t else (k, w) :: assocPut t key v

/-- `lenv_get`: search the local table; on a hit return `lval_copy` of
the stored value; on a miss recurse to the parent; when there is no
parent (the `[]` end of the chain) return the unbound-symbol error. -/
def lenv_get : Env → String → lval
  | [], k => lvError ("unbound symbol '" ++ k ++ "'")
  | (_, t) :: rest, k =>
    match assocGet t k with
    | some v => lval_copy v
    | none => lenv_get rest k

/-- `lenv_put`: if this environment is read-only and already binds the
key, reject (`true`) without modifying anything; otherwise store a copy
of the value under the key in this environment's own table and return
`false`.  The `[]` branch is unreachable (a C caller always holds a
non-null environment). -/
def lenv_put : Env → String → lval → Bool × Env
  | [], _, _ => (false, [])
  | (ro, t) :: rest, k, v =>
    if ro && (assocGet t k).isSome then (true, (ro, t) :: rest)
    else (false, (ro, assocPut t k (lval_copy v)) :: rest)

/-- `lenv_def`: walk `while (e->parent) e = e->parent` to the root and
`lenv_put` there.  (Present in `lenv.c`; not reached by the builtins
embedded here.) -/
def lenv_def : Env → String → lval → Bool × Env
  | [], _, _ => (false, [])
  | [f], k, v => lenv_put [f] k v
  | f :: rest, k, v =>
    let (b, rest') := lenv_def rest k v
    (b, f :: rest')

/-- The registered name of each builtin, as passed to
`lenv_add_builtin(e, SYM, fn)`. -/
def builtinSymbol : BuiltinId → String
  | .bAdd => "+" | .bSub => "-" | .bMul => "*" | .bDiv => "/"
  | .bMin => "min" | .bMax => "max" | .bPow => "^" | .bMod => "%"
  | .bGt => ">" | .bLt => "<" | .bGte => ">=" | .bLte => "<="
  | .bDef => "def" | .bList => "list" | .bHead => "head"
  | .bTail => "tail" | .bEval => "eval" | .bJoin => "join"
  | .bLen => "len" | .bCons => "cons" | .bInit => "init"

/-- The root symbol table after builtin registration: the arithmetic
and comparison operators of `lenv_add_builtins_sums` (in the `IOPS`
declaration order) followed by the list/binding builtins of the
evaluator file's registration. -/
def rootTable : Table :=
  [("-", lvBuiltin .bSub), ("*", lvBuiltin .bMul), ("/", lvBuiltin .bDiv),
   ("+", lvBuiltin .bAdd), ("^", lvBuiltin .bPow), ("max", lvBuiltin .bMax),
   ("min", lvBuiltin .bMin), ("%", lvBuiltin .bMod), (">", lvBuiltin .bGt),
   ("<", lvBuiltin .bLt), (">=", lvBuiltin .bGte), ("<=", lvBuiltin .bLte),
   ("def", lvBuiltin .bDef), ("list", lvBuiltin .bList),
   ("head", lvBuiltin .bHead), ("tail", lvBuiltin .bTail),
   ("eval", lvBuiltin .bEval), ("join", lvBuiltin .bJoin),
   ("len", lvBuiltin .bLen), ("cons", lvBuiltin .bCons),
   ("init", lvBuiltin .bInit)]

/-- The environment `lilith_init` hands to the evaluator: a fresh
non-read-only child scope whose parent is the read-only root holding
the builtins.  (The standard-library bootstrap would further populate
the child; that loader is an external collaborator and none of its
bindings matter here.) -/
def initEnv : Env := [(false, []), (true, rootTable)]

/-! ## `def` and the evaluator

From the evaluator file.  `builtin_def` threads the environment (the C
mutates it in place); the evaluator is modelled with explicit fuel —
`none` means the fuel ran out, never a behaviour of the program. -/

/-- The validation loop of `builtin_def` over the name list: the first
element that is not a Symbol. -/
def check_symbols : List lval → Option lval
  | [] => none
  | lvSymbol _ :: vs => check_symbols vs
  | v :: _ => some v

/-- The binding loop of `builtin_def`: left-to-right
`lenv_put(env, name, value)`; the first rejected put aborts with the
"is a built-in" error, keeping the bindings already made (the C loop is
not transactional).  The fallback branch is unreachable: the caller has
checked that every name is a Symbol and that counts match. -/
def def_loop (env : Env) : List lval → List lval → Env × lval
  | [], _ => (env, lvSexpr [])
  | lvSymbol s :: syms, v :: vals =>
    match lenv_put env s v with
    | (true, env') => (env', lvError ("function '" ++ s ++ "' is a built-in"))
    | (false, env') => def_loop env' syms vals
  | _, _ => (env, lvError "def_loop applied to a non-symbol name")

/-- `builtin_def`: the first argument is a Q-expression of Symbols, the
remaining arguments are the values to bind to them, one each, in the
current environment.  Check order: first-argument tag, every name a
Symbol, name/value counts equal, then the binding loop.  On success the
result is an empty S-expression.  The empty-bundle branch is
unreachable from the evaluator (the C would index an empty list). -/
def builtin_def (env : Env) (symbol : String) (args : List lval) :
    Env × lval :=
  match args with
  | lvQexpr syms :: vals =>
    match check_symbols syms with
    | some v => (env, lvError (typeArgMsg symbol "Symbol" (ltype_name v)))
    | none =>
      if syms.length = vals.length then def_loop env syms vals
      else (env, lvError (s!"function '{symbol}' argument mismatch - " ++
        s!"{syms.length} symbols, {vals.length} values"))
  | v :: _ => (env, lvError (typeArgMsg symbol "Q-Expression" (ltype_name v)))
  | [] => (env, lvError ("function '" ++ symbol ++ "' received no arguments"))

/-- The error scan of `lval_eval_sexpr` over the evaluated children:
the first child that is an Error. -/
def firstError : List lval → Option lval
  | [] => none
  | v :: vs => if isError v then some v else firstError vs

mutual

/-- `lval_eval`: a Symbol evaluates to `lenv_get` of its name, an
S-expression to `lval_eval_sexpr`, and every other value to itself.
The environment is threaded because builtins (`def`) may mutate it. -/
def lval_eval : Nat → Env → lval → Option (Env × lval)
  | 0, _, _ => none
  | Nat.succ fuel, env, v =>
    match v with
    | lvSymbol s => some (env, lenv_get env s)
    | lvSexpr cells => lval_eval_sexpr fuel env cells
    | v => some (env, v)

/-- The first loop of `lval_eval_sexpr`: evaluate every child
left-to-right in place, threading the environment. -/
def eval_children : Nat → Env → List lval → Option (Env × List lval)
  | 0, _, _ => none
  | Nat.succ _, env, [] => some (env, [])
  | Nat.succ fuel, env, c :: cs =>
    match lval_eval fuel env c with
    | none => none
    | some (env', r) =>
      match eval_children fuel env' cs with
      | none => none
      | some (env'', rs) => some (env'', r :: rs)

/-- `lval_eval_sexpr`: evaluate all children; scan the results and
return the first Error, discarding the rest; an empty sequence returns
itself; a single element is returned on its own; otherwise the first
element must be a function, which is applied to the remaining elements.
User-function application post-dates this revision of the evaluator:
a non-builtin head produces the not-a-function error (`ltype_name`
renders both function tags as "Function"). -/
def lval_eval_sexpr : Nat → Env → List lval → Option (Env × lval)
  | 0, _, _ => none
  | Nat.succ fuel, env, cells =>
    match eval_children fuel env cells with
    | none => none
    | some (env', rs) =>
      match firstError rs with
      | some e => some (env', e)
      | none =>
        match rs with
        | [] => some (env', lvSexpr [])
        | [x] => some (env', x)
        | f :: args =>
          match f with
          | lvBuiltin id => apply_builtin fuel env' id args
          | _ => some (env', lvError ("s-expression does not start " ++
              "with function, '" ++ ltype_name f ++ "'"))

/-- Dispatch of a builtin function value to its native operation, as
the registration tables pair them; each is called with its registered
name.  `eval` retags its Q-expression argument as an S-expression and
re-enters the evaluator. -/
def apply_builtin : Nat → Env → BuiltinId → List lval →
    Option (Env × lval)
  | 0, _, _, _ => none
  | Nat.succ fuel, env, id, args =>
    match id with
    | .bAdd => some (env, builtin_op "+" args .ADD)
    | .bSub => some (env, builtin_op "-" args .SUB)
    | .bMul => some (env, builtin_op "*" args .MUL)
    | .bDiv => some (env, builtin_op "/" args .DIV)
    | .bMin => some (env, builtin_op "min" args .MIN)
    | .bMax => some (env, builtin_op "max" args .MAX)
    | .bPow => some (env, builtin_op "^" args .POW)
    | .bMod => some (env, builtin_op "%" args .MOD)
    | .bGt => some (env, builtin_op ">" args .GT)
    | .bLt => some (env, builtin_op "<" args .LT)
    | .bGte => some (env, builtin_op ">=" args .GTE)
    | .bLte => some (env, builtin_op "<=" args .LTE)
    | .bDef => some (builtin_def env "def" args)
    | .bList => some (env, builtin_list "list" args)
    | .bHead => some (env, builtin_head "head" args)
    | .bTail => some (env, builtin_tail "tail" args)
    | .bJoin => some (env, builtin_join "join" args)
    | .bLen => some (env, builtin_len "len" args)
    | .bCons => some (env, builtin_cons "cons" args)
    | .bInit => some (env, builtin_init "init" args)
    | .bEval =>
      match args with
      | [lvQexpr cells] => lval_eval fuel env (lvSexpr cells)
      | [v] => some (env, lvError (typeArgMsg "eval" "Q-Expression"
          (ltype_name v)))
      | _ => some (env, lvError (numArgsMsg "eval" 1 args.length))

end

/-- Modelled from the spec's wording of sequence evaluation, for
comparison with the code (claim C3): children are evaluated
left-to-right, but "if any evaluated child is an Error, stop
immediately and return that Error", leaving the remaining children
unevaluated; when no child errs, the continuation (empty sequence /
single element / function application) is the code's.  `acc` holds the
already-evaluated children. -/
def eval_sc_loop : Nat → Env → List lval → List lval → Option (Env × lval)
  | 0, _, _, _ => none
  | Nat.succ fuel, env, acc, [] =>
    (match acc with
     | [] => some (env, lvSexpr [])
     | [x] => some (env, x)
     | f :: args =>
       match f with
       | lvBuiltin id => apply_builtin fuel env id args
       | _ => some (env, lvError ("s-expression does not start " ++
           "with function, '" ++ ltype_name f ++ "'")))
  | Nat.succ fuel, env, acc, c :: cs =>
    match lval_eval fuel env c with
    | none => none
    | some (env', r) =>
      if isError r then some (env', r)
      else eval_sc_loop fuel env' (acc ++ [r]) cs

/-- Entry point of the spec-worded short-circuit evaluation of an
S-expression's children (claim C3). -/
def eval_sexpr_sc (fuel : Nat) (env : Env) (cells : List lval) :
    Option (Env × lval) :=
  eval_sc_loop fuel env [] cells

/-! ## Helper lemmas -/

theorem headTrim_cons (x : lval) (xs : List lval) :
    headTrim (x :: xs) = [x] := by
  induction xs with
  | nil => simp [headTrim]
  | cons y rest ih => rw [show headTrim (x :: y :: rest) = headTrim (x :: rest) from by simp [headTrim]]; exact ih

theorem joinCells_eq_append (xs ys : List lval) :
    joinCells xs ys = xs ++ ys := by
  induction ys generalizing xs with
  | nil => simp [joinCells]
  | cons y ys ih => simp [joinCells, ih]

theorem op_fold_eq_foldl (iop : Iop) (x : lval) (l : List lval) :
    op_fold iop x l = l.foldl (do_calc iop) x := by
  induction l generalizing x with
  | nil => rfl
  | cons y ys ih => simp [op_fold, List.foldl, ih]

theorem check_numeric_eq_find (l : List lval) :
    check_numeric l = l.find? (fun v => !isNumeric v) := by
  induction l with
  | nil => rfl
  | cons v vs ih =>
    by_cases h : isNumeric v = true <;>
      simp [check_numeric, List.find?, h, ih]

theorem check_numeric_none (l : List lval)
    (h : ∀ v ∈ l, isNumeric v = true) : check_numeric l = none := by
  induction l with
  | nil => rfl
  | cons v vs ih =>
    have hv := h v (by simp)
    simp [check_numeric, hv]
    exact ih (fun u hu => h u (by simp [hu]))

theorem firstError_eq_find (l : List lval) :
    firstError l = l.find? isError := by
  induction l with
  | nil => rfl
  | cons v vs ih =>
    by_cases h : isError v = true <;> simp [firstError, List.find?, h, ih]

mutual

theorem lval_copy_id : ∀ v : lval, lval_copy v = v
  | lvLong _ => by simp [lval_copy]
  | lvDouble _ => by simp [lval_copy]
  | lvBool _ => by simp [lval_copy]
  | lvString _ => by simp [lval_copy]
  | lvSymbol _ => by simp [lval_copy]
  | lvError _ => by simp [lval_copy]
  | lvBuiltin _ => by simp [lval_copy]
  | lvSexpr cells => by simp [lval_copy, lval_copy_list_id cells]
  | lvQexpr cells => by simp [lval_copy, lval_copy_list_id cells]
  | lvUserFun env f b => by
      simp [lval_copy, lenv_copy_id env, lval_copy_id f, lval_copy_id b]

theorem lval_copy_list_id : ∀ l : List lval, lval_copy_list l = l
  | [] => by simp [lval_copy_list]
  | v :: vs => by simp [lval_copy_list, lval_copy_id v, lval_copy_list_id vs]

theorem lenv_copy_id :
    ∀ e : List (Bool × List (String × lval)), lenv_copy e = e
  | [] => by simp [lenv_copy]
  | (ro, t) :: rest => by simp [lenv_copy, lenv_copy_table_id t]

theorem lenv_copy_table_id :
    ∀ t : List (String × lval), lenv_copy_table t = t
  | [] => by simp [lenv_copy_table]
  | (k, v) :: t => by
      simp [lenv_copy_table, lval_copy_id v, lenv_copy_table_id t]

end

mutual

theorem lval_is_equal_refl : ∀ v : lval, lval_is_equal v v = true
  | lvLong _ => by simp [lval_is_equal]
  | lvDouble _ => by simp [lval_is_equal]
  | lvBool _ => by simp [lval_is_equal]
  | lvString _ => by simp [lval_is_equal]
  | lvSymbol _ => by simp [lval_is_equal]
  | lvError _ => by simp [lval_is_equal]
  | lvBuiltin _ => by simp [lval_is_equal]
  | lvSexpr cells => by
      simp [lval_is_equal, lval_is_equal_cells_self cells]
  | lvQexpr cells => by
      simp [lval_is_equal, lval_is_equal_cells_self cells]
  | lvUserFun env f b => by
      simp [lval_is_equal, lval_is_equal_refl f, lval_is_equal_refl b]

theorem lval_is_equal_cells_self :
    ∀ l : List lval, lval_is_equal_cells l l = true
  | [] => by simp [lval_is_equal_cells]
  | v :: vs => by
      simp [lval_is_equal_cells, lval_is_equal_refl v,
        lval_is_equal_cells_self vs]

end

/-! ## Claim theorems -/

/-- C7: `head` applied to one non-empty Q-expression returns a new
Q-expression holding only the first element; applied to an empty
Q-expression it returns the Error naming the symbol and mentioning an
empty q-expression. -/
theorem head_contract :
    (∀ x xs, builtin_head "head" [lvQexpr (x :: xs)] = lvQexpr [x])
    ∧ builtin_head "head" [lvQexpr []] =
        lvError "empty q-expression passed to 'head'" := by
  constructor
  · intro x xs
    simp [builtin_head, headTrim_cons]
  · rfl

/-- C8 (counterexample): the claimed identity `cons(first q, tail q) = q`
fails for `q = {{1}}` — the first element of `q` is itself a
Q-expression, which `cons` rejects ("value or a function"), so the
round trip produces an Error, not `q`. -/
theorem cons_head_tail_fails_on_nested :
    builtin_tail "tail" [lvQexpr [lvQexpr [lvLong 1]]] = lvQexpr []
    ∧ builtin_cons "cons" [lvQexpr [lvLong 1], lvQexpr []] =
        lvError "first 'cons' parameter should be a value or a function"
    ∧ builtin_cons "cons" [lvQexpr [lvLong 1], lvQexpr []] ≠
        lvQexpr [lvQexpr [lvLong 1]] := by
  refine ⟨rfl, rfl, ?_⟩
  intro h
  rw [show builtin_cons "cons" [lvQexpr [lvLong 1], lvQexpr []] =
    lvError "first 'cons' parameter should be a value or a function"
    from rfl] at h
  exact absurd h (by simp)

/-- C8 (amended): for every non-empty Q-expression whose first element
is a number or a function, `cons` of that element onto `tail` of the
Q-expression rebuilds it; `join` concatenates Q-expressions in argument
order, in particular `join(list(1,2), list(3)) = list(1,2,3)`. -/
theorem cons_tail_join_identities :
    (∀ x xs, (isNumeric x || isFunction x) = true →
      builtin_cons "cons" [x, builtin_tail "tail" [lvQexpr (x :: xs)]] =
        lvQexpr (x :: xs))
    ∧ (∀ as bs, builtin_join "join" [lvQexpr as, lvQexpr bs] =
        lvQexpr (as ++ bs))
    ∧ builtin_join "join" [lvQexpr [lvLong 1, lvLong 2], lvQexpr [lvLong 3]] =
        lvQexpr [lvLong 1, lvLong 2, lvLong 3] := by
  refine ⟨?_, ?_, rfl⟩
  · intro x xs h
    cases xs with
    | nil =>
      simp [builtin_tail, builtin_cons, h, joinCells_eq_append]
    | cons y ys =>
      simp [builtin_tail, builtin_cons, h, joinCells_eq_append]
  · intro as bs
    simp [builtin_join, check_qexpr, join_fold, lval_join,
      joinCells_eq_append]

/-- C8 (witness): the amended identity at `q = {1 2 3}`. -/
theorem cons_tail_join_identities_witness :
    builtin_cons "cons"
        [lvLong 1, builtin_tail "tail" [lvQexpr [lvLong 1, lvLong 2, lvLong 3]]] =
      lvQexpr [lvLong 1, lvLong 2, lvLong 3] :=
  cons_tail_join_identities.1 (lvLong 1) [lvLong 2, lvLong 3] rfl

/-- C10: the modulo builtin has no divide-by-zero guard — on two
Integers with a zero divisor it produces an Integer (the truncated
remainder, which the total model evaluates to the dividend), never
`Error("divide by zero")`, unlike division on the same operands.  (At
runtime the unguarded C expression `x % 0` is undefined behaviour — a
trap on common targets — rather than any returned value; the theorem
captures the absence of the error mapping in the code.) -/
theorem mod_zero_unguarded :
    (∀ x : Int, builtin_op "%" [lvLong x, lvLong 0] Iop.MOD = lvLong x)
    ∧ (∀ x : Int,
        isError (builtin_op "%" [lvLong x, lvLong 0] Iop.MOD) = false)
    ∧ (∀ x y : Int, isError (lop Iop.MOD x y) = false)
    ∧ (∀ x : Int, builtin_op "/" [lvLong x, lvLong 0] Iop.DIV =
        lvError "divide by zero") := by
  refine ⟨?_, ?_, ?_, ?_⟩
  · intro x
    simp [builtin_op, check_numeric, isNumeric, op_fold, do_calc, lop]
  · intro x
    simp [builtin_op, check_numeric, isNumeric, op_fold, do_calc, lop,
      isError]
  · intro x y
    simp [lop, isError]
  · intro x
    simp [builtin_op, check_numeric, isNumeric, op_fold, do_calc, lop]

/-- C2: the division builtin with a zero divisor — Integer or Decimal
zero, against any numeric dividend — returns exactly
`Error("divide by zero")`.  (The guard precedes the division, so no
infinity or NaN is ever produced; the rational model would not even
express one.) -/
theorem division_by_zero_error :
    ∀ x, isNumeric x = true →
      builtin_op "/" [x, lvLong 0] Iop.DIV = lvError "divide by zero"
      ∧ builtin_op "/" [x, lvDouble 0] Iop.DIV = lvError "divide by zero" := by
  intro x hx
  cases x <;> simp_all [isNumeric, builtin_op, check_numeric, op_fold,
    do_calc, lop, dop]

/-- C2 (witness): the spec's instances `(/ 5 0)` and `(/ 5.0 0.0)`. -/
theorem division_by_zero_error_witness :
    builtin_op "/" [lvLong 5, lvLong 0] Iop.DIV = lvError "divide by zero"
    ∧ builtin_op "/" [lvDouble 5, lvDouble 0] Iop.DIV =
        lvError "divide by zero" :=
  ⟨(division_by_zero_error (lvLong 5) rfl).1,
   (division_by_zero_error (lvDouble 5) rfl).2⟩

/-- C5 (code evaluated at the failing input): after the length check,
`lval_is_equal` compares the elements of its first argument with
themselves (both loop cursors start at `x`'s head), so any two
Q-expressions of equal length compare equal — structural equality of
the elements is never consulted. -/
theorem lval_is_equal_length_only (xs ys : List lval)
    (h : xs.length = ys.length) :
    lval_is_equal (lvQexpr xs) (lvQexpr ys) = true := by
  simp [lval_is_equal, h, lval_is_equal_cells_self]

/-- C5 (witness): `{1}` and `{2}` — different elements, equal length —
compare equal under the code. -/
theorem lval_is_equal_length_only_witness :
    ([lvLong 1] : List lval).length = [lvLong 2].length
    ∧ lval_is_equal (lvQexpr [lvLong 1]) (lvQexpr [lvLong 2]) = true :=
  ⟨rfl, lval_is_equal_length_only [lvLong 1] [lvLong 2] rfl⟩

/-- C1: on a pair of numeric operands the division builtin never
produces an Integer — with a non-zero divisor the result is a Decimal
(the quotient computed in floating point even for two Integers), and
`(/ 4 2)` is Decimal `2.0`.  (A zero divisor gives the
divide-by-zero Error of C2.) -/
theorem division_always_decimal :
    (∀ x y, isNumeric x = true → isNumeric y = true →
      isLong (builtin_op "/" [x, y] Iop.DIV) = false)
    ∧ (∀ a b : Int, b ≠ 0 →
        builtin_op "/" [lvLong a, lvLong b] Iop.DIV =
          lvDouble ((a : ℚ) / (b : ℚ)))
    ∧ builtin_op "/" [lvLong 4, lvLong 2] Iop.DIV = lvDouble 2 := by
  refine ⟨?_, ?_, ?_⟩
  · intro x y hx hy
    cases x <;> cases y <;>
      simp_all [isNumeric, builtin_op, check_numeric, op_fold, do_calc,
        lop, dop] <;>
      split <;> simp [isLong]
  · intro a b hb
    simp [builtin_op, check_numeric, isNumeric, op_fold, do_calc, lop, hb]
  · simp [builtin_op, check_numeric, isNumeric, op_fold, do_calc, lop]
    norm_num

/-- C1 (witness): the general clauses at the concrete pair `(9, 3)`. -/
theorem division_always_decimal_witness :
    isLong (builtin_op "/" [lvLong 9, lvLong 3] Iop.DIV) = false
    ∧ builtin_op "/" [lvLong 9, lvLong 3] Iop.DIV =
        lvDouble ((9 : ℚ) / (3 : ℚ)) :=
  ⟨division_always_decimal.1 (lvLong 9) (lvLong 3) rfl rfl,
   division_always_decimal.2.1 9 3 (by norm_num)⟩

/-- C6: the contract of the arithmetic fold `builtin_op` — (a) a
non-numeric argument anywhere in the bundle aborts with a type-mismatch
Error naming the first offender, before any computation; (b) single-
operand subtraction negates the operand in place (Integer or Decimal);
(c) otherwise the first operand is popped and the promoted binary
operation is folded left-to-right over the remaining operands. -/
theorem builtin_op_contract :
    (∀ sym iop args v, args.find? (fun u => !isNumeric u) = some v →
      builtin_op sym args iop =
        lvError ("function '" ++ sym ++
          "' type mismatch - expected numeric, received " ++ ltype_name v))
    ∧ (∀ sym n, builtin_op sym [lvLong n] Iop.SUB = lvLong (-n))
    ∧ (∀ sym d, builtin_op sym [lvDouble d] Iop.SUB = lvDouble (-d))
    ∧ (∀ sym iop x rest, (∀ v ∈ x :: rest, isNumeric v = true) →
        (iop = Iop.SUB → rest ≠ []) →
        builtin_op sym (x :: rest) iop = rest.foldl (do_calc iop) x) := by
  refine ⟨?_, ?_, ?_, ?_⟩
  · intro sym iop args v h
    have hc : check_numeric args = some v := by
      rw [check_numeric_eq_find]; exact h
    simp [builtin_op, hc]
  · intro sym n; rfl
  · intro sym d; rfl
  · intro sym iop x rest hnum hsub
    have hc : check_numeric (x :: rest) = none := check_numeric_none _ hnum
    cases rest with
    | nil =>
      have hne : iop ≠ Iop.SUB := fun h => hsub h rfl
      cases iop <;> simp_all [builtin_op, op_fold]
    | cons y ys =>
      simp [builtin_op, hc, op_fold_eq_foldl]

/-- C6 (witness): the three clauses at concrete bundles — a Boolean in
the bundle aborts `+`, `(- 5)` negates, and `(+ 1 2 3)` folds. -/
theorem builtin_op_contract_witness :
    builtin_op "+" [lvLong 1, lvBool true] Iop.ADD =
      lvError "function '+' type mismatch - expected numeric, received Boolean"
    ∧ builtin_op "-" [lvLong 5] Iop.SUB = lvLong (-5)
    ∧ builtin_op "+" [lvLong 1, lvLong 2, lvLong 3] Iop.ADD =
        [lvLong 2, lvLong 3].foldl (do_calc Iop.ADD) (lvLong 1) :=
  ⟨builtin_op_contract.1 "+" Iop.ADD _ (lvBool true) rfl,
   builtin_op_contract.2.1 "-" 5,
   builtin_op_contract.2.2.2 "+" Iop.ADD (lvLong 1) [lvLong 2, lvLong 3]
     (by intro v hv; fin_cases hv <;> rfl) (by intro h; simp)⟩

/-- C9: `lenv_get` resolves a symbol against the innermost frame that
binds it, recursing to the parent on a miss and producing
`Error("unbound symbol '<name>'")` when the chain is exhausted; a hit
returns `lval_copy` of the stored value, and the deep copy reproduces
the stored value exactly (so the caller can never alias the stored
binding). -/
theorem lenv_get_contract :
    (∀ env k, lenv_get env k =
      match env.findSome? (fun f => assocGet f.2 k) with
      | some v => lval_copy v
      | none => lvError ("unbound symbol '" ++ k ++ "'"))
    ∧ (∀ v : lval, lval_copy v = v) := by
  constructor
  · intro env k
    induction env with
    | nil => rfl
    | cons f rest ih =>
      obtain ⟨ro, t⟩ := f
      cases h : assocGet t k with
      | none => simp [lenv_get, List.findSome?_cons, h, ih]
      | some v => simp [lenv_get, List.findSome?_cons, h]
  · exact lval_copy_id

/-- C3 (counterexample): sequence evaluation does *not* stop at the
first erroring child.  Evaluating `(boom (def {x} 5))` — where `boom`
is unbound — still evaluates the second child, binding `x` in the
current scope, before the error scan returns the first Error; the
spec-worded short-circuit semantics leaves `x` unbound.  The two
semantics therefore differ on this input. -/
theorem eval_not_shortcircuit :
    lval_eval_sexpr 100 initEnv
        [lvSymbol "boom",
         lvSexpr [lvSymbol "def", lvQexpr [lvSymbol "x"], lvLong 5]] =
      some ([(false, [("x", lvLong 5)]), (true, rootTable)],
        lvError "unbound symbol 'boom'")
    ∧ eval_sexpr_sc 100 initEnv
        [lvSymbol "boom",
         lvSexpr [lvSymbol "def", lvQexpr [lvSymbol "x"], lvLong 5]] =
      some (initEnv, lvError "unbound symbol 'boom'")
    ∧ lenv_get [(false, [("x", lvLong 5)]), (true, rootTable)] "x" =
        lvLong 5
    ∧ lenv_get initEnv "x" = lvError "unbound symbol 'x'"
    ∧ lval_eval_sexpr 100 initEnv
        [lvSymbol "boom",
         lvSexpr [lvSymbol "def", lvQexpr [lvSymbol "x"], lvLong 5]] ≠
      eval_sexpr_sc 100 initEnv
        [lvSymbol "boom",
         lvSexpr [lvSymbol "def", lvQexpr [lvSymbol "x"], lvLong 5]] := by
  refine ⟨rfl, rfl, rfl, rfl, ?_⟩
  intro h
  rw [show lval_eval_sexpr 100 initEnv
        [lvSymbol "boom",
         lvSexpr [lvSymbol "def", lvQexpr [lvSymbol "x"], lvLong 5]] =
      some ([(false, [("x", lvLong 5)]), (true, rootTable)],
        lvError "unbound symbol 'boom'") from rfl,
    show eval_sexpr_sc 100 initEnv
        [lvSymbol "boom",
         lvSexpr [lvSymbol "def", lvQexpr [lvSymbol "x"], lvLong 5]] =
      some (initEnv, lvError "unbound symbol 'boom'") from rfl] at h
  exact absurd h (by simp [initEnv])

/-- C3 (amended): the evaluator first evaluates *every* child
left-to-right (threading the environment, so their side effects all
occur), and only then scans the results: the first Error among the
evaluated children is returned and the rest of the sequence is
discarded. -/
theorem eval_sexpr_error_scan (fuel : Nat) (env env' : Env)
    (cells rs : List lval) (e : lval)
    (h : eval_children fuel env cells = some (env', rs))
    (he : rs.find? isError = some e) :
    lval_eval_sexpr (fuel + 1) env cells = some (env', e) := by
  have hf : firstError rs = some e := by rw [firstError_eq_find]; exact he
  simp [lval_eval_sexpr, h, hf]

/-- C3 (witness): the amended statement at `(boom (def {y} 7))` with
fuel 99 + 1. -/
theorem eval_sexpr_error_scan_witness :
    lval_eval_sexpr 100 initEnv
        [lvSymbol "boom",
         lvSexpr [lvSymbol "def", lvQexpr [lvSymbol "y"], lvLong 7]] =
      some ([(false, [("y", lvLong 7)]), (true, rootTable)],
        lvError "unbound symbol 'boom'") :=
  eval_sexpr_error_scan 99 initEnv
    [(false, [("y", lvLong 7)]), (true, rootTable)]
    [lvSymbol "boom",
     lvSexpr [lvSymbol "def", lvQexpr [lvSymbol "y"], lvLong 7]]
    [lvError "unbound symbol 'boom'", lvSexpr []]
    (lvError "unbound symbol 'boom'") rfl rfl

/-- C4 (counterexample): evaluating `(def {+} 1)` in the environment
`lilith_init` builds (non-read-only child over the read-only builtin
root) *succeeds*: `lenv_put` checks the read-only flag of the current
scope only, so the name is bound in the child, shadowing the builtin —
no Error mentioning "built-in" is produced.  The root frame itself is
unchanged (last two conjuncts). -/
theorem def_rebind_builtin_succeeds :
    lval_eval 100 initEnv
        (lvSexpr [lvSymbol "def", lvQexpr [lvSymbol "+"], lvLong 1]) =
      some ([(false, [("+", lvLong 1)]), (true, rootTable)], lvSexpr [])
    ∧ isError (lvSexpr []) = false
    ∧ lenv_get [(false, [("+", lvLong 1)]), (true, rootTable)] "+" =
        lvLong 1
    ∧ lenv_get [(true, rootTable)] "+" = lvBuiltin BuiltinId.bAdd :=
  ⟨rfl, rfl, rfl, rfl⟩

/-- C4 (amended): `def` of a single name binds in the *current*
environment: in a non-read-only scope the put always succeeds,
inserting the binding into that scope's own table and leaving the
parent chain (in particular the root) untouched; only when `def`
executes directly in a read-only environment that already binds the
name is it rejected with `Error("function '<name>' is a built-in")`,
leaving the environment unchanged. -/
theorem def_put_semantics :
    (∀ ct rest k v, builtin_def ((false, ct) :: rest) "def"
        [lvQexpr [lvSymbol k], v] =
      (((false, assocPut ct k (lval_copy v)) :: rest), lvSexpr []))
    ∧ (∀ t rest k v, (assocGet t k).isSome = true →
        builtin_def ((true, t) :: rest) "def" [lvQexpr [lvSymbol k], v] =
          (((true, t) :: rest),
            lvError ("function '" ++ k ++ "' is a built-in"))) := by
  constructor
  · intro ct rest k v
    rfl
  · intro t rest k v h
    simp [builtin_def, check_symbols, def_loop, lenv_put, h]

/-- C4 (witness): both clauses at the claim's scenario `def {+} 1` —
rejected when run directly in the read-only root, successful (shadowing)
in the child scope of `initEnv`. -/
theorem def_put_semantics_witness :
    builtin_def [(true, rootTable)] "def" [lvQexpr [lvSymbol "+"], lvLong 1] =
      ([(true, rootTable)], lvError "function '+' is a built-in")
    ∧ builtin_def initEnv "def" [lvQexpr [lvSymbol "+"], lvLong 1] =
      ([(false, [("+", lvLong 1)]), (true, rootTable)], lvSexpr []) :=
  ⟨def_put_semantics.2 rootTable [] "+" (lvLong 1) rfl,
   def_put_semantics.1 [] [(true, rootTable)] "+" (lvLong 1)⟩
